import Mathlib

/-!
Shallow embedding of the Bounce Tennis Shot Tracker script (`app.py`).

The script is a single linear pipeline: load a YOLO model, take an uploaded
video, open it with OpenCV, loop over frames (predict, tally detections,
normalize the annotated frame, write it), release the capture and the writer,
then display the tally and a download button.  External effects (model
loading, video capture, the detector, the filesystem) are modelled as inputs
to the pipeline; the pipeline itself is the pure function `runPipeline`.
-/

namespace BounceShot

/-- Pixel dtypes that matter to the normalization branch on line 127 of the
script (`annotated.dtype != np.uint8`): 8-bit, or a floating-point dtype. -/
inductive DType where
  | u8
  | f32
  | f64
deriving DecidableEq

/-- One pixel: red, green, blue channel values (rationals stand in for the
numeric channel values; uint8 frames hold integers in [0, 255]). -/
structure Pix where
  r : ℚ
  g : ℚ
  b : ℚ
deriving DecidableEq

/-- A video frame: dtype, width, height and a pixel grid. -/
structure Frame where
  dtype : DType
  w : ℕ
  h : ℕ
  px : ℕ → ℕ → Pix

/-- `np.clip(x, 0, 1)` on one channel value. -/
def clip01 (x : ℚ) : ℚ := max 0 (min x 1)

/-- One channel of `(255 * np.clip(a, 0, 1)).astype(np.uint8)`: clip to
[0, 1], scale by 255, truncate to an integer (values are nonnegative, so the
C cast in `astype` is the floor). -/
def u8val (x : ℚ) : ℚ := ((⌊255 * clip01 x⌋ : ℤ) : ℚ)

/-- `(255 * np.clip(p, 0, 1)).astype(np.uint8)` on one pixel. -/
def pixU8 (p : Pix) : Pix := ⟨u8val p.r, u8val p.g, u8val p.b⟩

/-- Whole-frame `(255 * np.clip(annotated, 0, 1)).astype(np.uint8)`
(line 128). -/
def toUint8 (a : Frame) : Frame :=
  { a with dtype := DType.u8, px := fun x y => pixU8 (a.px x y) }

/-- Lines 127-128: `if annotated.dtype != np.uint8: annotated = ...`. -/
def dtypeStep (a : Frame) : Frame :=
  if a.dtype = DType.u8 then a else toUint8 a

/-- `cv2.resize(a, (W, H))`: the result has the requested width and height,
keeps the dtype, and resamples the source grid (nearest-neighbour stands in
for the library's interpolation; only the shape and dtype contract of
`cv2.resize` is relied upon). -/
def cvResize (a : Frame) (W H : ℕ) : Frame :=
  { a with w := W, h := H, px := fun x y => a.px (x * a.w / W) (y * a.h / H) }

/-- Lines 129-130: `if (annotated.shape[1], annotated.shape[0]) != (width,
height): annotated = cv2.resize(annotated, (width, height))`. -/
def shapeStep (a : Frame) (W H : ℕ) : Frame :=
  if (a.w, a.h) = (W, H) then a else cvResize a W H

/-- `cv2.COLOR_RGB2BGR` on one pixel: swap the red and blue channels. -/
def swapRB (p : Pix) : Pix := ⟨p.b, p.g, p.r⟩

/-- Line 132: `cv2.cvtColor(annotated, cv2.COLOR_RGB2BGR)`. -/
def rgb2bgr (a : Frame) : Frame :=
  { a with px := fun x y => swapRB (a.px x y) }

/-- Lines 125-126: `if annotated is None: annotated = frame`. -/
def noneFallback (frame : Frame) (ann : Option Frame) : Frame :=
  ann.getD frame

/-- The frame actually passed to `writer.write` for one input frame
(lines 125-132): None-fallback, dtype normalization, shape normalization,
then RGB-to-BGR conversion. -/
def writtenFrame (frame : Frame) (ann : Option Frame) (W H : ℕ) : Frame :=
  rgb2bgr (shapeStep (dtypeStep (noneFallback frame ann)) W H)

/-- Label strings of `class_map` (lines 51-55). -/
def forehandLabel : String := "Forehand"

/-- Label for class id 1. -/
def backhandLabel : String := "Backhand"

/-- Label for class id 2. -/
def serveLabel : String := "Serve"

/-- `class_map = {0: "Forehand", 1: "Backhand", 2: "Serve"}` viewed as the
partial map used by `if cls_id in class_map` (lines 51-55, 122). -/
def class_map (c : ℤ) : Option String :=
  if c = 0 then some forehandLabel
  else if c = 1 then some backhandLabel
  else if c = 2 then some serveLabel
  else none

/-- Lines 121-123 for one detection box: `if cls_id in class_map:
shot_counter[class_map[cls_id]] += 1`.  The counter is modelled as a total
function from label strings to integers (a `collections.Counter` stores
integer values, defaulting to 0). -/
def bumpTally (t : String → ℤ) (c : ℤ) : String → ℤ :=
  match class_map c with
  | some lbl => fun l => if l = lbl then t l + 1 else t l
  | none => t

/-- Lines 120-123: fold `bumpTally` over all detections of one frame. -/
def updateTally (t : String → ℤ) (cls : List ℤ) : String → ℤ :=
  cls.foldl bumpTally t

/-- Sum of the tally over the three labels the script can ever touch. -/
def tallySum (t : String → ℤ) : ℤ :=
  t forehandLabel + t backhandLabel + t serveLabel

/-- A class id is in scope when `cls_id in class_map` holds. -/
def inScope (c : ℤ) : Bool := (class_map c).isSome

/-- Line 96: `fps = cap.get(cv2.CAP_PROP_FPS) or 25.0` — Python `or` takes
the right operand exactly when the reported value is falsy (0.0). -/
def effFps (reported : ℚ) : ℚ := if reported = 0 then 25 else reported

/-- Line 137: `f"Processed frame {i}/{frame_count}"`. -/
def statusText (i : ℕ) (fc : ℤ) : String :=
  "Processed frame " ++ toString i ++ "/" ++ toString fc

/-- Line 136-137 payload: the fraction `min(i / frame_count, 1.0)` handed to
the progress bar, and the status text. -/
def progressEntry (i : ℕ) (fc : ℤ) : ℚ × String :=
  (min ((i : ℚ) / (fc : ℚ)) 1, statusText i fc)

/-- Line 39: `MODEL_PATH = "my_model.pt"`. -/
def MODEL_PATH : String := "my_model.pt"

/-- How one iteration of the frame loop interacts with the outside world:
the frame `cap.read` returned, and the outcome of
`model.predict` / `results[0].plot()` / `results[0].boxes` — either an
uncaught exception (message), or the annotated frame (possibly `None`)
together with the detected class ids. -/
structure FrameStep where
  frame : Frame
  predict : Except String (Option Frame × List ℤ)

/-- `True` when this frame's detector call does not raise. -/
def predictOk (fs : FrameStep) : Bool :=
  match fs.predict with
  | Except.ok _ => true
  | Except.error _ => false

/-- The annotated frame (`results[0].plot()`) of a non-raising step. -/
def annotatedOf (fs : FrameStep) : Option Frame :=
  match fs.predict with
  | Except.ok (a, _) => a
  | Except.error _ => none

/-- The detected class ids (`results[0].boxes`, line 120-121) of a
non-raising step. -/
def clsOf (fs : FrameStep) : List ℤ :=
  match fs.predict with
  | Except.ok (_, c) => c
  | Except.error _ => []

/-- Total number of in-scope detections across a list of frame steps. -/
def inScopeDetections (l : List FrameStep) : ℕ :=
  (l.map (fun fs => (clsOf fs).countP inScope)).sum

/-- Everything the script receives from the outside world in one run:
whether `YOLO(MODEL_PATH)` raises (line 42), whether a file was uploaded
(line 72), whether `cap.isOpened()` holds (line 89), the capture metadata
(lines 93-96), and the sequence of successfully read frames with their
detector outcomes (the read after the last one returns `ret == False`). -/
structure RunInput where
  modelLoad : Except String Unit
  uploaded : Bool
  capOpens : Bool
  frameCount : ℤ
  width : ℕ
  height : ℕ
  fps : ℚ
  frames : List FrameStep

/-- Mutable state of the frame loop (lines 103-137): the shot counter, the
frames written so far, the counter `i`, and the progress reports issued. -/
structure LoopState where
  tally : String → ℤ
  written : List Frame
  i : ℕ
  progress : List (ℚ × String)

/-- State before the first iteration: empty counter, nothing written,
`i = 0`, no report issued. -/
def initLoopState : LoopState := ⟨fun _ => 0, [], 0, []⟩

/-- The `while True` loop (lines 110-137).  Each step: predict (an uncaught
exception aborts the loop, second component `some msg`), update the counter
from the boxes, normalize and write the annotated frame, increment `i`, and
report progress only when `frame_count > 0` (lines 135-137). -/
def runLoop (W H : ℕ) (fc : ℤ) : LoopState → List FrameStep → LoopState × Option String
  | s, [] => (s, none)
  | s, fs :: rest =>
    match fs.predict with
    | Except.error e => (s, some e)
    | Except.ok (ann, cls) =>
      runLoop W H fc
        { tally := updateTally s.tally cls
          written := s.written ++ [writtenFrame fs.frame ann W H]
          i := s.i + 1
          progress :=
            if fc > 0 then s.progress ++ [progressEntry (s.i + 1) fc]
            else s.progress }
        rest

/-- How a run ends: the loop finished and the script went on to the results
section; or `st.stop()` fired (no upload, model-load failure with path and
cause, unreadable video); or an uncaught per-frame exception propagated. -/
inductive Outcome where
  | completed
  | stoppedNoUpload
  | stoppedModelError (path cause : String)
  | stoppedUnreadable
  | crashed (msg : String)
deriving DecidableEq

/-- Externally observable result of one run: outcome, whether
`cv2.VideoCapture` / `cv2.VideoWriter` were ever constructed, the parameters
the writer was opened with (fps, width, height), the final counter, the
frames written, the progress reports, and whether `cap.release()` /
`writer.release()` were reached. -/
structure RunResult where
  outcome : Outcome
  capConstructed : Bool
  writerConstructed : Bool
  writerParams : Option (ℚ × ℕ × ℕ)
  tally : String → ℤ
  written : List Frame
  progress : List (ℚ × String)
  capReleased : Bool
  writerReleased : Bool

/-- The whole script, lines 39-140, as a function of the outside world.
Order of effects follows the source: model load (line 44, abort on
exception), upload check (line 73), `cv2.VideoCapture` + `isOpened` check
(lines 88-91), `cv2.VideoWriter(out_path, fourcc, fps, (width, height))`
(line 100), the frame loop, and — only when the loop ends by a failed read —
`cap.release(); writer.release()` (lines 139-140).  An uncaught per-frame
exception skips the releases: there is no `try`/`finally` in the source. -/
def runPipeline (inp : RunInput) : RunResult :=
  match inp.modelLoad with
  | Except.error e =>
    { outcome := Outcome.stoppedModelError MODEL_PATH e
      capConstructed := false, writerConstructed := false, writerParams := none
      tally := fun _ => 0, written := [], progress := []
      capReleased := false, writerReleased := false }
  | Except.ok _ =>
    if inp.uploaded then
      if inp.capOpens then
        let fps := effFps inp.fps
        let res := runLoop inp.width inp.height inp.frameCount initLoopState inp.frames
        match res.2 with
        | some e =>
          { outcome := Outcome.crashed e
            capConstructed := true, writerConstructed := true
            writerParams := some (fps, inp.width, inp.height)
            tally := res.1.tally, written := res.1.written, progress := res.1.progress
            capReleased := false, writerReleased := false }
        | none =>
          { outcome := Outcome.completed
            capConstructed := true, writerConstructed := true
            writerParams := some (fps, inp.width, inp.height)
            tally := res.1.tally, written := res.1.written, progress := res.1.progress
            capReleased := true, writerReleased := true }
      else
        { outcome := Outcome.stoppedUnreadable
          capConstructed := true, writerConstructed := false, writerParams := none
          tally := fun _ => 0, written := [], progress := []
          capReleased := false, writerReleased := false }
    else
      { outcome := Outcome.stoppedNoUpload
        capConstructed := false, writerConstructed := false, writerParams := none
        tally := fun _ => 0, written := [], progress := []
        capReleased := false, writerReleased := false }

/-- Line 161: `if os.path.exists(out_path) and os.path.getsize(out_path) > 0`
guarding `st.download_button`. -/
def downloadButtonShown (outFileExists : Bool) (outFileSize : ℕ) : Bool :=
  outFileExists && decide (0 < outFileSize)

/-- A concrete 2x2 uint8 frame used in concrete runs. -/
def dummyFrame : Frame := ⟨DType.u8, 2, 2, fun _ _ => ⟨0, 0, 0⟩⟩

/-- A concrete 3x2 floating-point frame with out-of-range channel values. -/
def floatFrame : Frame := ⟨DType.f32, 3, 2, fun _ _ => ⟨2, -1, 1/2⟩⟩

/-- A concrete detector exception message. -/
def crashMsg : String := "CUDA error: out of memory"

/-- A concrete model-load exception message. -/
def missingMsg : String := "No such file or directory: my_model.pt"

/-- A run whose reads, detector calls and writes all succeed: two frames,
detections with class ids 0, 1, 5, -3 on the first and 2 on the second. -/
def okInput : RunInput :=
  { modelLoad := Except.ok (), uploaded := true, capOpens := true
    frameCount := 2, width := 2, height := 2, fps := 30
    frames :=
      [ ⟨dummyFrame, Except.ok (some floatFrame, [0, 1, 5, -3])⟩
      , ⟨dummyFrame, Except.ok (none, [2])⟩ ] }

/-- A run whose single frame makes the detector raise. -/
def crashInput : RunInput :=
  { modelLoad := Except.ok (), uploaded := true, capOpens := true
    frameCount := 1, width := 2, height := 2, fps := 30
    frames := [⟨dummyFrame, Except.error crashMsg⟩] }

/-- A run whose container reports a frame count of 0 but still yields one
readable frame. -/
def zeroCountInput : RunInput :=
  { modelLoad := Except.ok (), uploaded := true, capOpens := true
    frameCount := 0, width := 2, height := 2, fps := 30
    frames := [⟨dummyFrame, Except.ok (none, [])⟩] }

/-- A run where `YOLO(MODEL_PATH)` raises. -/
def badModelInput : RunInput :=
  { modelLoad := Except.error missingMsg, uploaded := true, capOpens := true
    frameCount := 9, width := 4, height := 3, fps := 30
    frames := [⟨dummyFrame, Except.ok (none, [])⟩] }

/-- A run where the uploaded file cannot be opened. -/
def unreadableInput : RunInput :=
  { modelLoad := Except.ok (), uploaded := true, capOpens := false
    frameCount := 0, width := 0, height := 0, fps := 0, frames := [] }

/-- A run whose capture reports `fps == 0.0`. -/
def fpsZeroInput : RunInput :=
  { modelLoad := Except.ok (), uploaded := true, capOpens := true
    frameCount := 0, width := 6, height := 4, fps := 0, frames := [] }

/-! ### Helper lemmas -/

lemma bumpTally_le (t : String → ℤ) (c : ℤ) (l : String) :
    t l ≤ bumpTally t c l := by
  unfold bumpTally
  cases class_map c with
  | none => exact le_refl _
  | some lbl =>
    by_cases h : l = lbl
    · simp [h]
    · simp [h]

lemma bumpTally_of_not_in_map (t : String → ℤ) (c : ℤ)
    (h : class_map c = none) : bumpTally t c = t := by
  unfold bumpTally
  rw [h]

lemma label_ne_bf : backhandLabel ≠ forehandLabel := by decide

lemma label_ne_sf : serveLabel ≠ forehandLabel := by decide

lemma label_ne_fb : forehandLabel ≠ backhandLabel := by decide

lemma label_ne_sb : serveLabel ≠ backhandLabel := by decide

lemma label_ne_fs : forehandLabel ≠ serveLabel := by decide

lemma label_ne_bs : backhandLabel ≠ serveLabel := by decide

lemma class_map_cases (c : ℤ) (lbl : String) (h : class_map c = some lbl) :
    lbl = forehandLabel ∨ lbl = backhandLabel ∨ lbl = serveLabel := by
  unfold class_map at h
  split_ifs at h with h0 h1 h2
  · exact Or.inl (Option.some.inj h).symm
  · exact Or.inr (Or.inl (Option.some.inj h).symm)
  · exact Or.inr (Or.inr (Option.some.inj h).symm)

lemma bumpTally_sum (t : String → ℤ) (c : ℤ) :
    tallySum (bumpTally t c) = tallySum t + (if inScope c then 1 else 0) := by
  unfold bumpTally inScope
  cases hm : class_map c with
  | none => simp [tallySum]
  | some lbl =>
    rcases class_map_cases c lbl hm with h | h | h <;> subst h <;>
      simp [tallySum, label_ne_bf, label_ne_sf, label_ne_fb, label_ne_sb,
        label_ne_fs, label_ne_bs] <;> try ring

lemma bumpTally_off (t : String → ℤ) (c : ℤ) (l : String)
    (h1 : l ≠ forehandLabel) (h2 : l ≠ backhandLabel) (h3 : l ≠ serveLabel) :
    bumpTally t c l = t l := by
  unfold bumpTally
  cases hm : class_map c with
  | none => rfl
  | some lbl =>
    have hne : l ≠ lbl := by
      rcases class_map_cases c lbl hm with h | h | h <;> subst h <;> assumption
    simp [hne]

lemma updateTally_le (cls : List ℤ) (t : String → ℤ) (l : String) :
    t l ≤ updateTally t cls l := by
  induction cls generalizing t with
  | nil => exact le_refl _
  | cons c cs ih =>
    calc t l ≤ bumpTally t c l := bumpTally_le t c l
      _ ≤ updateTally (bumpTally t c) cs l := ih _

lemma updateTally_sum (cls : List ℤ) (t : String → ℤ) :
    tallySum (updateTally t cls) = tallySum t + ((cls.countP inScope : ℕ) : ℤ) := by
  induction cls generalizing t with
  | nil => simp [updateTally]
  | cons c cs ih =>
    have step : updateTally t (c :: cs) = updateTally (bumpTally t c) cs := rfl
    rw [step, ih, bumpTally_sum, List.countP_cons]
    by_cases hc : inScope c = true
    · simp only [hc, if_true]
      push_cast
      ring
    · simp only [hc, if_false]
      simp [hc]

lemma updateTally_off (cls : List ℤ) (t : String → ℤ) (l : String)
    (h1 : l ≠ forehandLabel) (h2 : l ≠ backhandLabel) (h3 : l ≠ serveLabel) :
    updateTally t cls l = t l := by
  induction cls generalizing t with
  | nil => rfl
  | cons c cs ih =>
    have step : updateTally t (c :: cs) = updateTally (bumpTally t c) cs := rfl
    rw [step, ih, bumpTally_off t c l h1 h2 h3]

/-- When every detector call succeeds, the loop runs to the end-of-stream
break: no crash, the counter is the fold of the per-frame tally updates, and
exactly one normalized frame is appended per input frame, in input order. -/
lemma runLoop_ok_spec (W H : ℕ) (fc : ℤ) (l : List FrameStep) :
    ∀ s : LoopState, (∀ fs ∈ l, predictOk fs = true) →
    (runLoop W H fc s l).2 = none ∧
    (runLoop W H fc s l).1.tally
      = l.foldl (fun t fs => updateTally t (clsOf fs)) s.tally ∧
    (runLoop W H fc s l).1.written
      = s.written ++ l.map (fun fs => writtenFrame fs.frame (annotatedOf fs) W H) := by
  induction l with
  | nil => intro s _; simp [runLoop]
  | cons fs rest ih =>
    intro s h
    have hfs : predictOk fs = true := h fs (List.mem_cons_self _ _)
    cases hp : fs.predict with
    | error e => simp [predictOk, hp] at hfs
    | ok pair =>
      obtain ⟨ann, cls⟩ := pair
      have hrest := ih
        { tally := updateTally s.tally cls
          written := s.written ++ [writtenFrame fs.frame ann W H]
          i := s.i + 1
          progress :=
            if fc > 0 then s.progress ++ [progressEntry (s.i + 1) fc]
            else s.progress }
        (fun g hg => h g (List.mem_cons_of_mem _ hg))
      refine ⟨?_, ?_, ?_⟩
      · simp only [runLoop, hp]
        exact hrest.1
      · simp only [runLoop, hp]
        rw [hrest.2.1]
        simp [clsOf, hp]
      · simp only [runLoop, hp]
        rw [hrest.2.2]
        simp [annotatedOf, hp]

lemma foldTally_le (l : List FrameStep) :
    ∀ (t : String → ℤ) (lbl : String),
      t lbl ≤ l.foldl (fun t fs => updateTally t (clsOf fs)) t lbl := by
  induction l with
  | nil => intro t lbl; exact le_refl _
  | cons fs rest ih =>
    intro t lbl
    rw [List.foldl_cons]
    calc t lbl ≤ updateTally t (clsOf fs) lbl := updateTally_le _ t lbl
      _ ≤ _ := ih _ lbl

lemma foldTally_sum (l : List FrameStep) :
    ∀ t : String → ℤ,
      tallySum (l.foldl (fun t fs => updateTally t (clsOf fs)) t)
        = tallySum t + ((inScopeDetections l : ℕ) : ℤ) := by
  induction l with
  | nil => intro t; simp [inScopeDetections]
  | cons fs rest ih =>
    intro t
    have hcons : (inScopeDetections (fs :: rest) : ℤ)
        = ((clsOf fs).countP inScope : ℤ) + (inScopeDetections rest : ℤ) := by
      simp [inScopeDetections]
    rw [List.foldl_cons, ih, updateTally_sum, hcons]
    ring

lemma foldTally_off (l : List FrameStep) :
    ∀ (t : String → ℤ) (lbl : String), lbl ≠ forehandLabel → lbl ≠ backhandLabel →
      lbl ≠ serveLabel →
      l.foldl (fun t fs => updateTally t (clsOf fs)) t lbl = t lbl := by
  induction l with
  | nil => intro t lbl _ _ _; rfl
  | cons fs rest ih =>
    intro t lbl h1 h2 h3
    rw [List.foldl_cons, ih _ lbl h1 h2 h3, updateTally_off _ t lbl h1 h2 h3]

/-- A run whose detector calls all succeed reaches lines 139-140: the loop
ends on the failed read, the releases run, and the observable result fields
are as computed by the loop. -/
lemma runPipeline_happy (inp : RunInput) (hm : inp.modelLoad = Except.ok ())
    (hu : inp.uploaded = true) (hc : inp.capOpens = true)
    (hok : ∀ fs ∈ inp.frames, predictOk fs = true) :
    (runPipeline inp).outcome = Outcome.completed ∧
    (runPipeline inp).tally
      = inp.frames.foldl (fun t fs => updateTally t (clsOf fs)) (fun _ => 0) ∧
    (runPipeline inp).written
      = inp.frames.map
          (fun fs => writtenFrame fs.frame (annotatedOf fs) inp.width inp.height) ∧
    (runPipeline inp).writerParams = some (effFps inp.fps, inp.width, inp.height) ∧
    (runPipeline inp).capReleased = true ∧
    (runPipeline inp).writerReleased = true := by
  have hspec := runLoop_ok_spec inp.width inp.height inp.frameCount inp.frames
    initLoopState hok
  simp only [initLoopState] at hspec
  refine ⟨?_, ?_, ?_, ?_, ?_, ?_⟩ <;>
    simp [runPipeline, hm, hu, hc, hspec.1, hspec.2.1, hspec.2.2, initLoopState]

/-- When `frame_count <= 0`, the body of the `if frame_count > 0` guard never
runs: the loop issues no progress report at all. -/
lemma runLoop_progress_of_nonpos (W H : ℕ) (fc : ℤ) (hfc : ¬ (0 : ℤ) < fc)
    (l : List FrameStep) :
    ∀ s : LoopState, ((runLoop W H fc s l).1).progress = s.progress := by
  induction l with
  | nil => intro s; rfl
  | cons fs rest ih =>
    intro s
    cases hp : fs.predict with
    | error e => simp [runLoop, hp]
    | ok pair =>
      obtain ⟨ann, cls⟩ := pair
      have hif : (if fc > 0 then s.progress ++ [progressEntry (s.i + 1) fc]
          else s.progress) = s.progress := if_neg hfc
      simp only [runLoop, hp, hif]
      exact ih _

lemma progressFrac_mono (fc : ℤ) (hfc : 0 < fc) (i : ℕ) :
    min ((i : ℚ) / (fc : ℚ)) 1 ≤ min (((i + 1 : ℕ) : ℚ) / (fc : ℚ)) 1 := by
  have hq : (0 : ℚ) < (fc : ℚ) := by exact_mod_cast hfc
  refine min_le_min ?_ le_rfl
  rw [div_le_div_iff_of_pos_right hq]
  push_cast
  linarith

/-- When `frame_count > 0`, every progress fraction issued so far is bounded
by the fraction for the current `i`, and the issued list is sorted: the
invariant that makes the reported fraction monotone and capped at 1. -/
lemma runLoop_progress_inv (W H : ℕ) (fc : ℤ) (hfc : 0 < fc)
    (l : List FrameStep) :
    ∀ s : LoopState,
      List.Chain' (fun a b : ℚ × String => a.1 ≤ b.1) s.progress →
      (∀ p ∈ s.progress, p.1 ≤ min ((s.i : ℚ) / (fc : ℚ)) 1) →
      List.Chain' (fun a b : ℚ × String => a.1 ≤ b.1)
        ((runLoop W H fc s l).1).progress ∧
      ∀ p ∈ ((runLoop W H fc s l).1).progress,
        p.1 ≤ min ((((runLoop W H fc s l).1).i : ℚ) / (fc : ℚ)) 1 := by
  induction l with
  | nil => intro s h1 h2; exact ⟨h1, h2⟩
  | cons fs rest ih =>
    intro s h1 h2
    cases hp : fs.predict with
    | error e =>
      constructor
      · simpa [runLoop, hp] using h1
      · simpa [runLoop, hp] using h2
    | ok pair =>
      obtain ⟨ann, cls⟩ := pair
      have hif : (if fc > 0 then s.progress ++ [progressEntry (s.i + 1) fc]
          else s.progress) = s.progress ++ [progressEntry (s.i + 1) fc] := if_pos hfc
      have hchain : List.Chain' (fun a b : ℚ × String => a.1 ≤ b.1)
          (s.progress ++ [progressEntry (s.i + 1) fc]) := by
        rw [List.chain'_append]
        refine ⟨h1, List.chain'_singleton _, ?_⟩
        intro x hx y hy
        have hy' : progressEntry (s.i + 1) fc = y := by simpa using hy
        subst hy'
        obtain ⟨hne, hxl⟩ := List.mem_getLast?_eq_getLast hx
        have hxmem : x ∈ s.progress := hxl ▸ List.getLast_mem hne
        calc x.1 ≤ min ((s.i : ℚ) / (fc : ℚ)) 1 := h2 x hxmem
          _ ≤ min (((s.i + 1 : ℕ) : ℚ) / (fc : ℚ)) 1 := progressFrac_mono fc hfc s.i
          _ = (progressEntry (s.i + 1) fc).1 := rfl
      have hbound : ∀ p ∈ s.progress ++ [progressEntry (s.i + 1) fc],
          p.1 ≤ min (((s.i + 1 : ℕ) : ℚ) / (fc : ℚ)) 1 := by
        intro p hp'
        rcases List.mem_append.mp hp' with hmem | hmem
        · exact le_trans (h2 p hmem) (progressFrac_mono fc hfc s.i)
        · have : p = progressEntry (s.i + 1) fc := by simpa using hmem
          subst this
          exact le_refl _
      have hrest := ih
        { tally := updateTally s.tally cls
          written := s.written ++ [writtenFrame fs.frame ann W H]
          i := s.i + 1
          progress := s.progress ++ [progressEntry (s.i + 1) fc] }
        hchain hbound
      constructor
      · simp only [runLoop, hp, hif]
        exact hrest.1
      · simp only [runLoop, hp, hif]
        exact hrest.2

/-! ### Claim theorems -/

/-- C1: for every valid input (model loads, file uploaded, capture opens,
every detector call succeeds), the list of frames written to the output is
exactly the per-frame normalization of the input frames, in strict input
order — so one frame is written per input frame, none dropped or
duplicated, and the count matches. -/
theorem C1_one_frame_per_input (inp : RunInput)
    (hm : inp.modelLoad = Except.ok ()) (hu : inp.uploaded = true)
    (hc : inp.capOpens = true)
    (hok : ∀ fs ∈ inp.frames, predictOk fs = true) :
    (runPipeline inp).written
      = inp.frames.map
          (fun fs => writtenFrame fs.frame (annotatedOf fs) inp.width inp.height) ∧
    (runPipeline inp).written.length = inp.frames.length := by
  have h := (runPipeline_happy inp hm hu hc hok).2.2.1
  exact ⟨h, by rw [h, List.length_map]⟩

/-- C1 witness: the theorem evaluated on a concrete two-frame run. -/
theorem C1_one_frame_per_input_witness :
    (runPipeline okInput).written
      = okInput.frames.map
          (fun fs => writtenFrame fs.frame (annotatedOf fs) okInput.width okInput.height) ∧
    (runPipeline okInput).written.length = okInput.frames.length :=
  C1_one_frame_per_input okInput rfl rfl rfl (by decide)

/-- C2: for every run with successful detector calls (and hence, by
instantiating `inp.frames` with any prefix of a longer run, at every point
of a run), every tally count is nonnegative, the counts sum to the number
of detections with class id in \x7b0,1,2\x7d, labels other than the three
mapped ones stay at zero, and a detection whose class id is not in
`class_map` leaves the tally unchanged. -/
theorem C2_tally_invariant (inp : RunInput)
    (hm : inp.modelLoad = Except.ok ()) (hu : inp.uploaded = true)
    (hc : inp.capOpens = true)
    (hok : ∀ fs ∈ inp.frames, predictOk fs = true) :
    (∀ lbl, 0 ≤ (runPipeline inp).tally lbl) ∧
    tallySum ((runPipeline inp).tally) = ((inScopeDetections inp.frames : ℕ) : ℤ) ∧
    (∀ lbl, lbl ≠ forehandLabel → lbl ≠ backhandLabel → lbl ≠ serveLabel →
      (runPipeline inp).tally lbl = 0) ∧
    (∀ (t : String → ℤ) (c : ℤ), class_map c = none → bumpTally t c = t) := by
  have ht := (runPipeline_happy inp hm hu hc hok).2.1
  refine ⟨?_, ?_, ?_, fun t c h => bumpTally_of_not_in_map t c h⟩
  · intro lbl
    rw [ht]
    exact foldTally_le inp.frames _ lbl
  · rw [ht, foldTally_sum]
    simp [tallySum]
  · intro lbl h1 h2 h3
    rw [ht, foldTally_off inp.frames _ lbl h1 h2 h3]

/-- C2 witness: the tally invariant evaluated on a concrete run with
detections 0, 1, 5, -3 and 2 (three of them in scope). -/
theorem C2_tally_invariant_witness :
    tallySum ((runPipeline okInput).tally)
      = ((inScopeDetections okInput.frames : ℕ) : ℤ) ∧
    0 ≤ (runPipeline okInput).tally forehandLabel :=
  ⟨(C2_tally_invariant okInput rfl rfl rfl (by decide)).2.1,
   (C2_tally_invariant okInput rfl rfl rfl (by decide)).1 forehandLabel⟩

/-- C3 counterexample: a run whose single detector call raises exits the
pipeline with neither `cap.release()` nor `writer.release()` reached — the
source has no `try`/`finally` around the frame loop, so the claim that the
capture is released and the writer closed on a per-frame detector/writer
error is false. -/
theorem C3_release_counterexample :
    (runPipeline crashInput).outcome = Outcome.crashed crashMsg ∧
    (runPipeline crashInput).capReleased = false ∧
    (runPipeline crashInput).writerReleased = false :=
  ⟨rfl, rfl, rfl⟩

/-- C3 amended: the capture is released and the writer closed exactly when
the run completes normally (the loop ends by the failed read, which covers
normal completion and read failure); on any stop or uncaught per-frame
error, neither release runs. -/
theorem C3_release_amended (inp : RunInput) :
    ((runPipeline inp).capReleased = true ∧ (runPipeline inp).writerReleased = true)
      ↔ (runPipeline inp).outcome = Outcome.completed := by
  obtain ⟨ml, up, co, fcnt, w, hgt, fp, frs⟩ := inp
  cases ml with
  | error e => simp [runPipeline]
  | ok u =>
    cases up <;> cases co <;> simp [runPipeline]
    cases hres : (runLoop w hgt fcnt initLoopState frs).2 <;> simp [hres]

/-- C4 counterexample: with a reported frame count of 0 the loop processes
and writes a frame but issues no progress report at all — neither a bar
fraction nor the frame-count status string — contradicting the claim that
an indeterminate state (frame count string only) is reported. -/
theorem C4_progress_counterexample :
    zeroCountInput.frameCount = 0 ∧
    (runPipeline zeroCountInput).written.length = 1 ∧
    (runPipeline zeroCountInput).progress = [] :=
  ⟨rfl, rfl, rfl⟩

/-- C4 amended: the reported progress fractions are monotonically
non-decreasing and never exceed 1; when the reported total frame count is
not positive, no division is performed because no progress update (bar or
status text) is issued at all. -/
theorem C4_progress_amended (inp : RunInput) :
    List.Chain' (fun a b : ℚ × String => a.1 ≤ b.1) ((runPipeline inp).progress) ∧
    (∀ p ∈ (runPipeline inp).progress, p.1 ≤ 1) ∧
    (inp.frameCount ≤ 0 → (runPipeline inp).progress = []) := by
  obtain ⟨ml, up, co, fcnt, w, hgt, fp, frs⟩ := inp
  cases ml with
  | error e => simp [runPipeline]
  | ok u =>
    cases up <;> cases co <;> simp [runPipeline]
    by_cases hfc : (0 : ℤ) < fcnt
    · have hinv := runLoop_progress_inv w hgt fcnt hfc frs initLoopState
        (by simp [initLoopState]) (by simp [initLoopState])
      cases hres : (runLoop w hgt fcnt initLoopState frs).2
      · exact ⟨hinv.1, fun a b hp => le_trans (hinv.2 (a, b) hp) (min_le_right _ _),
          fun hle => absurd hfc (not_lt.mpr hle)⟩
      · exact ⟨hinv.1, fun a b hp => le_trans (hinv.2 (a, b) hp) (min_le_right _ _),
          fun hle => absurd hfc (not_lt.mpr hle)⟩
    · have hnil : (runLoop w hgt fcnt initLoopState frs).1.progress = [] :=
        runLoop_progress_of_nonpos w hgt fcnt hfc frs initLoopState
      cases hres : (runLoop w hgt fcnt initLoopState frs).2 <;> simp [hnil]

/-- C4 witness: the amended theorem evaluated at a concrete run whose
reported frame count is 0. -/
theorem C4_progress_amended_witness :
    (runPipeline zeroCountInput).progress = [] :=
  (C4_progress_amended zeroCountInput).2.2 (by decide)

/-- C5: if `YOLO(MODEL_PATH)` raises, the run stops with a model-load error
carrying the path and the underlying cause, before `cv2.VideoCapture` is
constructed and before any frame is processed or written. -/
theorem C5_model_load_error (inp : RunInput) (e : String)
    (hm : inp.modelLoad = Except.error e) :
    (runPipeline inp).outcome = Outcome.stoppedModelError MODEL_PATH e ∧
    (runPipeline inp).capConstructed = false ∧
    (runPipeline inp).writerConstructed = false ∧
    (runPipeline inp).written = [] ∧
    (∀ lbl, (runPipeline inp).tally lbl = 0) ∧
    (runPipeline inp).progress = [] := by
  simp [runPipeline, hm]

/-- C5 witness: the theorem evaluated on a concrete failing model load. -/
theorem C5_model_load_error_witness :
    (runPipeline badModelInput).outcome
      = Outcome.stoppedModelError MODEL_PATH missingMsg ∧
    (runPipeline badModelInput).capConstructed = false ∧
    (runPipeline badModelInput).writerConstructed = false ∧
    (runPipeline badModelInput).written = [] ∧
    (∀ lbl, (runPipeline badModelInput).tally lbl = 0) ∧
    (runPipeline badModelInput).progress = [] :=
  C5_model_load_error badModelInput missingMsg rfl

/-- C6: if the uploaded file cannot be opened (`cap.isOpened()` is false),
the run stops with the unreadable-video outcome, the output writer is never
constructed (so no output artifact is created), and nothing is written. -/
theorem C6_unreadable_video (inp : RunInput)
    (hm : inp.modelLoad = Except.ok ()) (hu : inp.uploaded = true)
    (hc : inp.capOpens = false) :
    (runPipeline inp).outcome = Outcome.stoppedUnreadable ∧
    (runPipeline inp).capConstructed = true ∧
    (runPipeline inp).writerConstructed = false ∧
    (runPipeline inp).writerParams = none ∧
    (runPipeline inp).written = [] := by
  simp [runPipeline, hm, hu, hc]

/-- C6 witness: the theorem evaluated on a concrete unopenable input. -/
theorem C6_unreadable_video_witness :
    (runPipeline unreadableInput).outcome = Outcome.stoppedUnreadable ∧
    (runPipeline unreadableInput).capConstructed = true ∧
    (runPipeline unreadableInput).writerConstructed = false ∧
    (runPipeline unreadableInput).writerParams = none ∧
    (runPipeline unreadableInput).written = [] :=
  C6_unreadable_video unreadableInput rfl rfl rfl

lemma shapeStep_w (a : Frame) (W H : ℕ) : (shapeStep a W H).w = W := by
  unfold shapeStep
  split
  · next h => exact congrArg Prod.fst h
  · rfl

lemma shapeStep_h (a : Frame) (W H : ℕ) : (shapeStep a W H).h = H := by
  unfold shapeStep
  split
  · next h => exact congrArg Prod.snd h
  · rfl

lemma shapeStep_dtype (a : Frame) (W H : ℕ) : (shapeStep a W H).dtype = a.dtype := by
  unfold shapeStep cvResize
  split <;> rfl

lemma dtypeStep_dtype (a : Frame) : (dtypeStep a).dtype = DType.u8 := by
  unfold dtypeStep toUint8
  split
  · next h => exact h
  · rfl

lemma clip01_nonneg (x : ℚ) : 0 ≤ clip01 x := le_max_left 0 (min x 1)

lemma clip01_le_one (x : ℚ) : clip01 x ≤ 1 :=
  max_le (by norm_num) (min_le_right x 1)

lemma u8val_nonneg (x : ℚ) : 0 ≤ u8val x := by
  unfold u8val
  have h : (0 : ℤ) ≤ ⌊(255 : ℚ) * clip01 x⌋ :=
    Int.floor_nonneg.mpr (mul_nonneg (by norm_num) (clip01_nonneg x))
  exact_mod_cast h

lemma u8val_le (x : ℚ) : u8val x ≤ 255 := by
  unfold u8val
  have h1 : (255 : ℚ) * clip01 x ≤ 255 := by
    have := clip01_le_one x
    linarith
  have h2 : ((⌊(255 : ℚ) * clip01 x⌋ : ℤ) : ℚ) ≤ (255 : ℚ) * clip01 x :=
    Int.floor_le _
  linarith

/-- C7: before each write, the frame handed to the writer has exactly the
input width and height (frames whose dimensions differ are resized back),
is 8-bit, its pixels come from clipping each channel to [0, 1] and scaling
to 8-bit whenever the annotated frame is not already 8-bit (so in
particular for floating-point frames), all converted channel values lie in
[0, 255], and the pixel actually written is the red/blue swap of the
normalized pixel. -/
theorem C7_write_normalization (frame : Frame) (ann : Option Frame) (W H : ℕ) :
    (writtenFrame frame ann W H).w = W ∧
    (writtenFrame frame ann W H).h = H ∧
    (writtenFrame frame ann W H).dtype = DType.u8 ∧
    ((noneFallback frame ann).dtype ≠ DType.u8 →
      ∀ x y, (dtypeStep (noneFallback frame ann)).px x y
        = pixU8 ((noneFallback frame ann).px x y)) ∧
    (∀ p : Pix, 0 ≤ (pixU8 p).r ∧ (pixU8 p).r ≤ 255 ∧ 0 ≤ (pixU8 p).g ∧
      (pixU8 p).g ≤ 255 ∧ 0 ≤ (pixU8 p).b ∧ (pixU8 p).b ≤ 255) ∧
    (∀ x y, (writtenFrame frame ann W H).px x y
      = swapRB ((shapeStep (dtypeStep (noneFallback frame ann)) W H).px x y)) := by
  refine ⟨?_, ?_, ?_, ?_, ?_, ?_⟩
  · exact shapeStep_w _ W H
  · exact shapeStep_h _ W H
  · show (shapeStep (dtypeStep (noneFallback frame ann)) W H).dtype = DType.u8
    rw [shapeStep_dtype, dtypeStep_dtype]
  · intro hne x y
    unfold dtypeStep
    rw [if_neg hne]
    rfl
  · intro p
    exact ⟨u8val_nonneg _, u8val_le _, u8val_nonneg _, u8val_le _,
      u8val_nonneg _, u8val_le _⟩
  · intro x y
    rfl

/-- C7 witness: the theorem evaluated at a concrete floating-point annotated
frame whose dimensions disagree with the input. -/
theorem C7_write_normalization_witness :
    (writtenFrame dummyFrame (some floatFrame) 2 2).w = 2 ∧
    (dtypeStep (noneFallback dummyFrame (some floatFrame))).px 0 0
      = pixU8 ((noneFallback dummyFrame (some floatFrame)).px 0 0) :=
  ⟨(C7_write_normalization dummyFrame (some floatFrame) 2 2).1,
   (C7_write_normalization dummyFrame (some floatFrame) 2 2).2.2.2.1
     (by decide) 0 0⟩

/-- C8: whenever the writer is opened, it is opened with the input's
reported width and height and with `fps or 25.0`: a reported frame rate of
0 (the falsy float) falls back to 25.0, any other reported rate is used
unchanged. -/
theorem C8_fps_fallback (inp : RunInput)
    (hm : inp.modelLoad = Except.ok ()) (hu : inp.uploaded = true)
    (hc : inp.capOpens = true) :
    (runPipeline inp).writerParams = some (effFps inp.fps, inp.width, inp.height) ∧
    (inp.fps = 0 → effFps inp.fps = 25) ∧
    (inp.fps ≠ 0 → effFps inp.fps = inp.fps) := by
  refine ⟨?_, fun h => by simp [effFps, h], fun h => by simp [effFps, h]⟩
  obtain ⟨ml, up, co, fcnt, w, hgt, fp, frs⟩ := inp
  cases ml with
  | error e => exact absurd hm (by simp)
  | ok u =>
    simp only at hu hc
    subst hu
    subst hc
    simp [runPipeline]
    cases hres : (runLoop w hgt fcnt initLoopState frs).2 <;> simp [hres]

/-- C8 witness: the theorem evaluated on a run whose capture reports
`fps == 0.0`. -/
theorem C8_fps_fallback_witness :
    (runPipeline fpsZeroInput).writerParams
      = some (effFps fpsZeroInput.fps, fpsZeroInput.width, fpsZeroInput.height) ∧
    effFps fpsZeroInput.fps = 25 :=
  ⟨(C8_fps_fallback fpsZeroInput rfl rfl rfl).1,
   (C8_fps_fallback fpsZeroInput rfl rfl rfl).2.1 rfl⟩

/-- C9: when the detector's annotated output is `None`, the original input
frame takes its place — the written frame equals the one obtained from
annotating with the original frame itself — and the loop still writes
exactly one (normalized) frame for such a step. -/
theorem C9_none_annotation_fallback (frame : Frame) (W H : ℕ) (fc : ℤ)
    (s : LoopState) (cls : List ℤ) :
    writtenFrame frame none W H = writtenFrame frame (some frame) W H ∧
    ((runLoop W H fc s [⟨frame, Except.ok (none, cls)⟩]).1).written
      = s.written ++ [writtenFrame frame none W H] :=
  ⟨rfl, by simp [runLoop]⟩

/-- C10: the download control is offered if and only if the output file
exists and its size is strictly positive; a run leaving no file or an empty
file presents no download. -/
theorem C10_download_guard (outFileExists : Bool) (outFileSize : ℕ) :
    downloadButtonShown outFileExists outFileSize = true ↔
      (outFileExists = true ∧ 0 < outFileSize) := by
  simp [downloadButtonShown]

end BounceShot
